import Mathlib

/-!
Shallow embedding of recognition/dataset.py: the four preprocessing
transforms Rescale, ToTensor, Normalise and ClipAndRescale, and their
composition get_transform.  Raw PIL pixels are 8-bit values (Fin 256);
after tensorization, images are channel-first rational grids.
-/

/-- Python runtime errors relevant to this module.  `nameError` is the error
actually raised by `Normalise.__call__` (its return statement reads the
unbound name `normalised_image`).  The remaining constructors are modelled
from the spec: the spec names `DegenerateStatisticsError`,
`InvalidRangeError`, `InvalidGeometryError` and `ShapeMismatchError`, none
of which the code defines or raises; they are included only so that claims
mentioning them can be stated. -/
inductive PyErr where
  | nameError
  | degenerateStatistics
  | invalidRange
  | invalidGeometry
  | shapeMismatch
  deriving DecidableEq

/-- A raw PIL sample: an RGB image of shape (H, W, 3) with 8-bit pixels and
a greyscale mask of shape (H, W) with 8-bit labels. -/
structure RawSample (h w : ℕ) where
  image : Fin h → Fin w → Fin 3 → Fin 256
  mask : Fin h → Fin w → Fin 256

/-- A tensor sample: a channel-first image of shape (3, H, W) and a 2D mask
of shape (H, W), both rational valued. -/
structure TensorSample (h w : ℕ) where
  image : Fin 3 → Fin h → Fin w → ℚ
  mask : Fin h → Fin w → ℚ

/-- Source row or column index chosen by PIL nearest-neighbour resampling
for output index `x` along an axis of input length `inN` and output length
`outN`: the integer part of `(x + 1/2) * inN / outN`, clamped into range. -/
def nearestIndex (inN : ℕ) [NeZero inN] (outN x : ℕ) : Fin inN :=
  ⟨min (inN - 1) ((2 * x + 1) * inN / (2 * outN)), by
    have hpos := Nat.pos_of_ne_zero (NeZero.ne inN)
    omega⟩

/-- `mask.resize((ow, oh), Image.NEAREST)`: every output pixel is a copy of
one input pixel, so no new values can appear. -/
def resizeNearest {h w : ℕ} [NeZero h] [NeZero w] (oh ow : ℕ) {α : Type}
    (m : Fin h → Fin w → α) : Fin oh → Fin ow → α :=
  fun i j => m (nearestIndex h oh i.val) (nearestIndex w ow j.val)

/-- Interpolation data for one axis of bilinear resampling with the PIL
centre convention: the two neighbouring source indices around the source
position `(x + 1/2) * inN / outN - 1/2` and the fractional weight of the
second one.  Border conventions approximate PIL; no theorem below depends on
the interpolated image values. -/
def bilinearAxis (inN : ℕ) [NeZero inN] (outN x : ℕ) : Fin inN × Fin inN × ℚ :=
  let p : ℚ := (2 * (x : ℚ) + 1) * (inN : ℚ) / (2 * (outN : ℚ)) - 1 / 2
  let i0 : Fin inN := ⟨min (inN - 1) ⌊p⌋.toNat, by
    have hpos := Nat.pos_of_ne_zero (NeZero.ne inN)
    omega⟩
  let i1 : Fin inN := ⟨min (inN - 1) (i0.val + 1), by
    have hpos := Nat.pos_of_ne_zero (NeZero.ne inN)
    omega⟩
  (i0, i1, min 1 (max 0 (p - (⌊p⌋ : ℚ))))

/-- Conversion of an interpolated rational back to an 8-bit pixel. -/
def roundToUint8 (q : ℚ) : Fin 256 :=
  ⟨min 255 (round q).toNat, by omega⟩

/-- `image.resize((ow, oh), Image.BILINEAR)` on an 8-bit RGB image, applied
per channel. -/
def resizeBilinear {h w : ℕ} [NeZero h] [NeZero w] (oh ow : ℕ)
    (img : Fin h → Fin w → Fin 3 → Fin 256) : Fin oh → Fin ow → Fin 3 → Fin 256 :=
  fun i j c =>
    let ri := bilinearAxis h oh i.val
    let rj := bilinearAxis w ow j.val
    let t := ri.2.2
    let u := rj.2.2
    let v00 : ℚ := ((img ri.1 rj.1 c).val : ℚ)
    let v01 : ℚ := ((img ri.1 rj.2.1 c).val : ℚ)
    let v10 : ℚ := ((img ri.2.1 rj.1 c).val : ℚ)
    let v11 : ℚ := ((img ri.2.1 rj.2.1 c).val : ℚ)
    roundToUint8 ((1 - t) * ((1 - u) * v00 + u * v01) + t * ((1 - u) * v10 + u * v11))

/-- `Rescale.__call__` with `output_size = (outW, outH)` (PIL size order is
(width, height)): bilinear resampling for the image, nearest neighbour for
the mask. -/
def Rescale_call {h w : ℕ} [NeZero h] [NeZero w] (outW outH : ℕ)
    (s : RawSample h w) : RawSample outH outW :=
  ⟨resizeBilinear outH outW s.image, resizeNearest outH outW s.mask⟩

/-- `transforms.functional.to_tensor` on an 8-bit RGB PIL image: transpose
to channel-first layout (3, H, W) and divide every value by 255. -/
def to_tensor_rgb {h w : ℕ} (img : Fin h → Fin w → Fin 3 → Fin 256) :
    Fin 3 → Fin h → Fin w → ℚ :=
  fun c i j => ((img i j c).val : ℚ) / 255

/-- `transforms.functional.to_tensor` on an 8-bit greyscale PIL image: the
result has shape (1, H, W) and every value, labels included, is divided
by 255 (mode L images are 8-bit, so torchvision rescales them like any
other uint8 input). -/
def to_tensor_gray {h w : ℕ} (m : Fin h → Fin w → Fin 256) :
    Fin 1 → Fin h → Fin w → ℚ :=
  fun _ i j => ((m i j).val : ℚ) / 255

/-- `.squeeze()` on a (1, H, W) tensor: drops the singleton channel
dimension. -/
def squeeze1 {h w : ℕ} (t : Fin 1 → Fin h → Fin w → ℚ) : Fin h → Fin w → ℚ :=
  fun i j => t 0 i j

/-- `ToTensor.__call__`. -/
def ToTensor_call {h w : ℕ} (s : RawSample h w) : TensorSample h w :=
  ⟨to_tensor_rgb s.image, squeeze1 (to_tensor_gray s.mask)⟩

/-- The value of `image.numpy()[0, mask.numpy() > 0]`: channel 0 of the
image at the positions where the mask is strictly positive, flattened in
row-major order. -/
def brainPixels {h w : ℕ} (image : Fin 3 → Fin h → Fin w → ℚ)
    (mask : Fin h → Fin w → ℚ) : List ℚ :=
  (((List.finRange h).flatMap fun i => (List.finRange w).map fun j => (i, j)).filterMap
    fun p => if 0 < mask p.1 p.2 then some (image 0 p.1 p.2) else none)

/-- numpy `.mean()` of a flat array.  On an empty array the rational value
0 / 0 = 0 stands in for the NaN numpy would produce; the value is never
observable because of the name error in `Normalise_call`. -/
def listMean (l : List ℚ) : ℚ := l.sum / (l.length : ℚ)

/-- `Normalise.__call__`.  Lines 13 to 17 of the source compute the
foreground pixel list, its mean and (via the variance) its population
standard deviation, and bind the z-scored image to `Normalised_image`; the
return statement on line 18 then reads the distinct, never assigned name
`normalised_image`, so every call raises `NameError` before any of those
values can reach the caller.  The standard deviation (the square root of
`_var`) and the z-scored image are dead bindings and are not modelled
further. -/
def Normalise_call {h w : ℕ} (s : TensorSample h w) :
    Except PyErr (TensorSample h w) :=
  let _bp := brainPixels s.image s.mask
  let _mean := listMean _bp
  let _var := listMean (_bp.map fun x => (x - _mean) ^ 2)
  Except.error PyErr.nameError

/-- Configuration stored by `ClipAndRescale.__init__`. -/
structure ClipAndRescale where
  clip_range : ℚ × ℚ
  rescale_range : ℚ × ℚ

/-- `ClipAndRescale.__init__(clip_range, rescale_range)`: the constructor
only stores the two ranges; it performs no validation of any kind, so
construction always succeeds, whatever the ranges are. -/
def ClipAndRescale_init (clip_range rescale_range : ℚ × ℚ) :
    Except PyErr ClipAndRescale :=
  Except.ok ⟨clip_range, rescale_range⟩

/-- `torch.clamp(x, lo, hi)`. -/
def clampQ (x lo hi : ℚ) : ℚ := min (max x lo) hi

/-- `ClipAndRescale.__call__`: clamp the image to `clip_range`, affinely
rescale the clipped values onto `rescale_range`, then set every channel to
0 at positions where the mask is 0 (`rescaled_image[expanded_mask == 0] = 0`,
with the mask broadcast across channels); the mask passes through
unchanged.  Rational division is total, so a configuration with
`clip_range.1 = clip_range.2` yields 0 where torch would produce NaN or
infinity; the theorems below assume a proper range. -/
def ClipAndRescale_call {h w : ℕ} (cfg : ClipAndRescale)
    (s : TensorSample h w) : TensorSample h w :=
  let clipped_image := fun (c : Fin 3) (i : Fin h) (j : Fin w) =>
    clampQ (s.image c i j) cfg.clip_range.1 cfg.clip_range.2
  let rescaled_image := fun (c : Fin 3) (i : Fin h) (j : Fin w) =>
    (clipped_image c i j - cfg.clip_range.1) /
      (cfg.clip_range.2 - cfg.clip_range.1) *
      (cfg.rescale_range.2 - cfg.rescale_range.1) + cfg.rescale_range.1
  ⟨fun c i j => if s.mask i j = 0 then 0 else rescaled_image c i j, s.mask⟩

/-- The configuration built by `ClipAndRescale()` with its default
arguments: clip to [-5, 5] and rescale onto [0, 1]. -/
def defaultClip : ClipAndRescale := ⟨(-5, 5), (0, 1)⟩

/-- `get_transform()` applied to one raw sample: `Rescale((128, 128))`,
then `ToTensor()`, then `Normalise()`, then `ClipAndRescale()`, in that
order; the first error aborts the composition. -/
def get_transform_apply {h w : ℕ} [NeZero h] [NeZero w] (s : RawSample h w) :
    Except PyErr (TensorSample 128 128) :=
  (Normalise_call (ToTensor_call (Rescale_call 128 128 s))).map
    fun t => ClipAndRescale_call defaultClip t

/-- Concrete 2 by 2 raw sample: constant image, one foreground mask pixel. -/
def rawA : RawSample 2 2 :=
  ⟨fun _ _ _ => ⟨7, by omega⟩,
   fun i j => if i = 0 ∧ j = 0 then ⟨1, by omega⟩ else ⟨0, by omega⟩⟩

/-- Concrete 1 by 1 raw sample with a foreground mask pixel. -/
def rawB : RawSample 1 1 := ⟨fun _ _ _ => ⟨9, by omega⟩, fun _ _ => ⟨1, by omega⟩⟩

/-- Concrete 1 by 1 raw sample whose single mask pixel carries label 255. -/
def raw255 : RawSample 1 1 := ⟨fun _ _ _ => ⟨0, by omega⟩, fun _ _ => ⟨255, by omega⟩⟩

/-- Concrete 2 by 2 tensor sample: foreground at (0,0) and (1,1), channel 0
foreground values 0 and 2 (non-empty, non-constant foreground). -/
def tsB : TensorSample 2 2 :=
  ⟨fun _ i j => (i.val : ℚ) + (j.val : ℚ), fun i j => if i = j then 1 else 0⟩

/-- Concrete 1 by 1 tensor sample whose mask is identically 0. -/
def tsZ : TensorSample 1 1 := ⟨fun _ _ _ => 3, fun _ _ => 0⟩

/-- Concrete 1 by 1 tensor sample with a foreground pixel of value 10,
at or above the default clip maximum 5. -/
def tsHigh : TensorSample 1 1 := ⟨fun _ _ _ => 10, fun _ _ => 1⟩

/-- Concrete 1 by 1 tensor sample with background mask and nonzero image. -/
def tsBg : TensorSample 1 1 := ⟨fun _ _ _ => 4, fun _ _ => 0⟩

/-- Helper: `torch.clamp` with an ordered range lands in the range. -/
theorem clampQ_mem (x lo hi : ℚ) (hle : lo ≤ hi) :
    lo ≤ clampQ x lo hi ∧ clampQ x lo hi ≤ hi :=
  ⟨le_min (le_max_right x lo) hle, min_le_right _ _⟩

/-- C1: the claim asserts the background-zero invariant for every sample
processed by the full pipeline, but the pipeline never processes any sample
to completion: `Normalise` raises `NameError` on every input (first
conjunct, evaluated on the concrete sample `rawA`).  The re-zeroing step
that would establish the invariant is nevertheless correct: on any input,
`ClipAndRescale` with the pipeline configuration returns an image that is 0
in every channel wherever the returned mask is 0 (second conjunct). -/
theorem C1_background_zero :
    get_transform_apply rawA = Except.error PyErr.nameError ∧
      ∀ (h w : ℕ) (s : TensorSample h w) (c : Fin 3) (i : Fin h) (j : Fin w),
        (ClipAndRescale_call defaultClip s).mask i j = 0 →
        (ClipAndRescale_call defaultClip s).image c i j = 0 := by
  refine ⟨rfl, ?_⟩
  intro h w s c i j hm
  have hm2 : s.mask i j = 0 := hm
  simp [ClipAndRescale_call, hm2]

/-- Witness for C1: on the concrete background sample `tsBg` the final
image value at a zero-mask position is 0. -/
theorem C1_background_zero_witness :
    (ClipAndRescale_call defaultClip tsBg).image 0 0 0 = 0 :=
  C1_background_zero.2 1 1 tsBg 0 0 0 rfl

/-- C2: on the concrete sample `tsB` (non-empty, non-constant foreground)
the selection `image.numpy()[0, mask.numpy() > 0]` is exactly the channel 0
foreground values [0, 2] (first conjunct), but `Normalise.__call__` does
not return the normalised image: it raises `NameError`, because the
computed value is bound to `Normalised_image` while the return statement
reads `normalised_image` (second conjunct). -/
theorem C2_normalise_statistics_crash :
    brainPixels tsB.image tsB.mask = [0, 2] ∧
      Normalise_call tsB = Except.error PyErr.nameError := by
  constructor
  · simp [brainPixels, tsB, List.finRange, List.flatMap, Fin.ext_iff]
    norm_num
  · rfl

/-- C3: `Normalise.__call__` raises `NameError` on every input, since the
name it returns is never defined, and consequently the composed pipeline
from `get_transform` returns no result for any sample: it propagates that
same `NameError`. -/
theorem C3_normalise_name_error (h w : ℕ) [NeZero h] [NeZero w]
    (t : TensorSample h w) (s : RawSample h w) :
    Normalise_call t = Except.error PyErr.nameError ∧
      get_transform_apply s = Except.error PyErr.nameError :=
  ⟨rfl, rfl⟩

/-- Witness for C3 at the concrete samples `tsZ` and `rawB`. -/
theorem C3_normalise_name_error_witness :
    Normalise_call tsZ = Except.error PyErr.nameError ∧
      get_transform_apply rawB = Except.error PyErr.nameError :=
  C3_normalise_name_error 1 1 tsZ rawB

/-- C4: the claim asserts the range bound for every sample processed by the
full pipeline, but the pipeline completes on no sample: it raises
`NameError` in `Normalise` (first conjunct, evaluated on the concrete
sample `rawB`).  The final stage itself is nevertheless correct: with the
pipeline configuration (clip [-5, 5], output [0, 1]), every element of the
image returned by `ClipAndRescale` lies in [0, 1] inclusive, for any input
(second conjunct). -/
theorem C4_range_bound :
    get_transform_apply rawB = Except.error PyErr.nameError ∧
      ∀ (h w : ℕ) (s : TensorSample h w) (c : Fin 3) (i : Fin h) (j : Fin w),
        0 ≤ (ClipAndRescale_call defaultClip s).image c i j ∧
          (ClipAndRescale_call defaultClip s).image c i j ≤ 1 := by
  refine ⟨rfl, ?_⟩
  intro h w s c i j
  by_cases hm : s.mask i j = 0
  · simp [ClipAndRescale_call, hm]
  · obtain ⟨h1, h2⟩ := clampQ_mem (s.image c i j) (-5) 5 (by norm_num)
    simp only [ClipAndRescale_call, defaultClip, if_neg hm]
    constructor
    · nlinarith
    · nlinarith

/-- C5: `ClipAndRescale.__call__` first clamps each element to
[cmin, cmax] and then applies the affine map sending cmin to mn and cmax
to mx; at any position the masking step leaves alone (mask nonzero), the
output is exactly the affine image of the clamped value, and an input at or
above cmax maps exactly to mx. -/
theorem C5_clip_then_affine (cmin cmax mn mx : ℚ) (h w : ℕ)
    (s : TensorSample h w) (c : Fin 3) (i : Fin h) (j : Fin w)
    (hlt : cmin < cmax) (hm : s.mask i j ≠ 0) :
    (ClipAndRescale_call ⟨(cmin, cmax), (mn, mx)⟩ s).image c i j =
        (clampQ (s.image c i j) cmin cmax - cmin) / (cmax - cmin) * (mx - mn) + mn ∧
      (cmax ≤ s.image c i j →
        (ClipAndRescale_call ⟨(cmin, cmax), (mn, mx)⟩ s).image c i j = mx) := by
  have hformula : (ClipAndRescale_call ⟨(cmin, cmax), (mn, mx)⟩ s).image c i j =
      (clampQ (s.image c i j) cmin cmax - cmin) / (cmax - cmin) * (mx - mn) + mn := by
    simp [ClipAndRescale_call, hm]
  refine ⟨hformula, fun hge => ?_⟩
  have hc : clampQ (s.image c i j) cmin cmax = cmax := by
    unfold clampQ
    rw [max_eq_left (le_trans (le_of_lt hlt) hge), min_eq_right hge]
  have hne : cmax - cmin ≠ 0 := sub_ne_zero.mpr (ne_of_gt hlt)
  rw [hformula, hc, div_self hne]
  ring

/-- Witness for C5: on the concrete sample `tsHigh`, whose foreground value
10 is at or above the clip maximum (the spec scenario mean + 10 std with
clip range (-5, 5)), the output equals the affine image of the clamped
value and is exactly 1 for the output range (0, 1). -/
theorem C5_clip_then_affine_witness :
    (ClipAndRescale_call ⟨((-5 : ℚ), 5), ((0 : ℚ), 1)⟩ tsHigh).image 0 0 0 =
        (clampQ (tsHigh.image 0 0 0) (-5) 5 - (-5)) / (5 - (-5)) * (1 - 0) + 0 ∧
      (ClipAndRescale_call ⟨((-5 : ℚ), 5), ((0 : ℚ), 1)⟩ tsHigh).image 0 0 0 = 1 :=
  have h := C5_clip_then_affine (-5) 5 0 1 1 1 tsHigh 0 0 0 (by norm_num) (by decide)
  ⟨h.1, h.2 (by decide)⟩

/-- Counterexample for C6: on the concrete sample `tsZ`, whose mask is
identically zero, the normalisation stage does not fail with the
degenerate-statistics error the claim names; it raises `NameError`, exactly
as it does on every other sample. -/
theorem C6_no_degenerate_error_cex :
    Normalise_call tsZ ≠ Except.error PyErr.degenerateStatistics ∧
      Normalise_call tsZ = Except.error PyErr.nameError := by
  refine ⟨fun hcontra => ?_, rfl⟩
  have h1 : Normalise_call tsZ = Except.error PyErr.nameError := rfl
  rw [h1] at hcontra
  exact absurd (Except.error.inj hcontra) (by decide)

/-- C6 amended: for every sample with an empty foreground (mask identically
zero) or a constant foreground, the normalisation stage fails, but with the
`NameError` raised for every sample, never with a degenerate-statistics
error, which the code does not define. -/
theorem C6_degenerate_name_error (h w : ℕ) (s : TensorSample h w)
    (_hdeg : (∀ i j, s.mask i j = 0) ∨
      ∀ x ∈ brainPixels s.image s.mask, ∀ y ∈ brainPixels s.image s.mask, x = y) :
    Normalise_call s = Except.error PyErr.nameError ∧
      Normalise_call s ≠ Except.error PyErr.degenerateStatistics := by
  refine ⟨rfl, fun hcontra => ?_⟩
  have h1 : Normalise_call s = Except.error PyErr.nameError := rfl
  rw [h1] at hcontra
  exact absurd (Except.error.inj hcontra) (by decide)

/-- Witness for C6 at the concrete all-zero-mask sample `tsZ`. -/
theorem C6_degenerate_name_error_witness :
    Normalise_call tsZ = Except.error PyErr.nameError ∧
      Normalise_call tsZ ≠ Except.error PyErr.degenerateStatistics :=
  C6_degenerate_name_error 1 1 tsZ (Or.inl fun _ _ => rfl)

/-- Counterexample for C7: on the concrete sample `raw255`, whose single
mask pixel carries label 255, tensorisation does not preserve the label
value: the resulting mask value is 1, because `to_tensor` divides 8-bit
inputs, masks included, by 255. -/
theorem C7_mask_not_preserved_cex :
    ((raw255.mask 0 0).val : ℚ) = 255 ∧
      (ToTensor_call raw255).mask 0 0 = 1 ∧
      (ToTensor_call raw255).mask 0 0 ≠ ((raw255.mask 0 0).val : ℚ) := by
  refine ⟨by norm_num [raw255], ?_, ?_⟩
  · norm_num [ToTensor_call, to_tensor_gray, squeeze1, raw255]
  · norm_num [ToTensor_call, to_tensor_gray, squeeze1, raw255]

/-- C7 amended: tensorisation produces a channel-first (3, H, W) image with
the 8-bit intensities divided by 255, hence inside [0, 1]; the mask becomes
a 2D (H, W) array with the singleton channel removed, but its label values
are likewise divided by 255 rather than preserved. -/
theorem C7_to_tensor_layout (h w : ℕ) (s : RawSample h w) :
    (∀ (c : Fin 3) (i : Fin h) (j : Fin w),
        (ToTensor_call s).image c i j = ((s.image i j c).val : ℚ) / 255 ∧
          0 ≤ (ToTensor_call s).image c i j ∧ (ToTensor_call s).image c i j ≤ 1) ∧
      ∀ (i : Fin h) (j : Fin w),
        (ToTensor_call s).mask i j = squeeze1 (to_tensor_gray s.mask) i j ∧
          (ToTensor_call s).mask i j = ((s.mask i j).val : ℚ) / 255 := by
  refine ⟨fun c i j => ⟨rfl, ?_, ?_⟩, fun i j => ⟨rfl, rfl⟩⟩
  · exact div_nonneg (Nat.cast_nonneg _) (by norm_num)
  · show ((s.image i j c).val : ℚ) / 255 ≤ 1
    rw [div_le_one (by norm_num)]
    have hb : (s.image i j c).val ≤ 255 := Nat.lt_succ_iff.mp (s.image i j c).isLt
    exact_mod_cast hb

/-- C8: every pixel the nearest-neighbour resampled mask of `Rescale`
contains is a copy of some pixel of the input mask, so the set of distinct
mask values after resampling is a subset of the set before. -/
theorem C8_nearest_label_subset (h w oh ow : ℕ) [NeZero h] [NeZero w]
    (s : RawSample h w) :
    Finset.image (fun p : Fin oh × Fin ow => (Rescale_call ow oh s).mask p.1 p.2)
        Finset.univ ⊆
      Finset.image (fun p : Fin h × Fin w => s.mask p.1 p.2) Finset.univ := by
  intro x hx
  simp only [Finset.mem_image, Finset.mem_univ, true_and] at hx ⊢
  obtain ⟨p, hp⟩ := hx
  exact ⟨(nearestIndex h oh p.1.val, nearestIndex w ow p.2.val), hp⟩

/-- Witness for C8: resampling the concrete mask of `rawA` from 2 by 2 up
to 3 by 3 introduces no new label values. -/
theorem C8_nearest_label_subset_witness :
    Finset.image (fun p : Fin 3 × Fin 3 => (Rescale_call 3 3 rawA).mask p.1 p.2)
        Finset.univ ⊆
      Finset.image (fun p : Fin 2 × Fin 2 => rawA.mask p.1 p.2) Finset.univ :=
  C8_nearest_label_subset 2 2 3 3 rawA

/-- Counterexample for C9: constructing the clip-and-rescale stage with the
degenerate clip range (5, 5) does not fail with the invalid-range error the
claim names; construction succeeds and stores the ranges as given. -/
theorem C9_init_no_validation_cex :
    ClipAndRescale_init (5, 5) (0, 1) = Except.ok ⟨(5, 5), (0, 1)⟩ ∧
      ClipAndRescale_init (5, 5) (0, 1) ≠ Except.error PyErr.invalidRange :=
  ⟨rfl, fun hcontra => Except.noConfusion hcontra⟩

/-- C9 amended: `ClipAndRescale.__init__` performs no validation at all: it
accepts any pair of ranges, including clip_min at or above clip_max and
out_min at or above out_max, and always succeeds, simply storing them. -/
theorem C9_init_accepts_all (clip_range rescale_range : ℚ × ℚ) :
    ClipAndRescale_init clip_range rescale_range =
      Except.ok ⟨clip_range, rescale_range⟩ :=
  rfl

/-- C10: the composed pipeline is a deterministic function of its input:
two invocations on equal inputs, under the one fixed configuration the code
builds, produce identical outcomes (here, identically the same
`NameError`). -/
theorem C10_deterministic (h w : ℕ) [NeZero h] [NeZero w]
    (s t : RawSample h w) (hst : s = t) :
    get_transform_apply s = get_transform_apply t := by rw [hst]

/-- Witness for C10 at the concrete sample `rawA`. -/
theorem C10_deterministic_witness :
    get_transform_apply rawA = get_transform_apply rawA :=
  C10_deterministic 2 2 rawA rawA rfl
